import Mathlib

/-!
Shallow embedding of the CloudRF API client core
(`APIv2/new-python-wip/core/CloudRF.py`), covering the request-construction
and validation pipeline: dot-notation CSV overrides merged into a JSON
template, API-key / CSV / request-type validation, HTTP status-code
classification and the sequential batch loop of `CloudRF.__init__`.

Filesystem interaction (file permission checks, template loading from disk)
and the network transport itself are external collaborators: the embedding
takes the loaded template, the parsed CSV rows and the per-request HTTP
responses as inputs and models everything the Python code computes from
them.  A Python `sys.exit` with a classified message and an uncaught Python
exception (`KeyError` / `TypeError`, which terminate with a traceback) are
both modelled as `Except.error` values whose constructors record which of
the two occurred.
-/

namespace CloudRF

/-- Model of Python `str.split(sep)` for a single-character separator,
working over the character list of the string: splitting the empty string
yields `[""]`, and adjacent separators yield empty segments, exactly as in
Python.  Used for `str(key).split('.')` and `str(api_key).split('-')`. -/
def splitChar (c : Char) : List Char → List (List Char)
  | [] => [[]]
  | x :: xs =>
    let r := splitChar c xs
    if x = c then [] :: r
    else
      match r with
      | [] => [[x]]
      | g :: gs => (x :: g) :: gs

/-- Python `str(s).split(c)` for a one-character separator `c`. -/
def pySplit (s : String) (c : Char) : List String :=
  (splitChar c s.data).map String.mk

/-- Model of Python `str.isnumeric()`: false on the empty string, true when
every character is numeric.  The client's inputs are ASCII, so character
numericness is modelled by `Char.isDigit`. -/
def pyIsNumeric (s : String) : Bool :=
  !s.data.isEmpty && s.data.all Char.isDigit

/-- JSON values as produced by `json.load` for the request template: the
Python code only ever distinguishes dict values (subscript-assignable) from
everything else, and never computes with scalars, so numbers are carried as
integers (the examples in play are integral-valued) and objects as ordered
association lists, matching insertion-ordered Python dicts. -/
inductive Json where
  | null : Json
  | bool (b : Bool) : Json
  | num (n : Int) : Json
  | str (s : String) : Json
  | arr (elems : List Json) : Json
  | obj (kvs : List (String × Json)) : Json

/-- Lookup of `d[k]` in an insertion-ordered dict modelled as an
association list: first binding of the key, `none` when absent
(a Python `KeyError` site). -/
def getKey : List (String × Json) → String → Option Json
  | [], _ => none
  | (k', v') :: rest, k => if k' = k then some v' else getKey rest k

/-- Assignment `d[k] = v` on an insertion-ordered dict: replaces the
value of an existing key in place, otherwise appends the new binding at
the end, exactly as Python dict assignment does. -/
def setKey : List (String × Json) → String → Json → List (String × Json)
  | [], k, v => [(k, v)]
  | (k', v') :: rest, k, v =>
    if k' = k then (k, v) :: rest else (k', v') :: setKey rest k v

/-- Ways a single override application can terminate abnormally.
`maxDepthExit` is the classified `sys.exit('Maximum depth of dot notation
2. ...')` of `CloudRF.py:139`; `keyError` and `typeError` are uncaught
Python exceptions (`templateJson[parts[0]]` on an absent key, and
subscript-assignment into a non-dict value, respectively), which crash
with a traceback rather than a classified message. -/
inductive MergeError where
  | maxDepthExit : MergeError
  | keyError (k : String) : MergeError
  | typeError : MergeError

/-- Whether a merge failure is a classified `sys.exit` (as opposed to an
uncaught Python exception). -/
def MergeError.isClassifiedExit : MergeError → Bool
  | .maxDepthExit => true
  | .keyError _ => false
  | .typeError => false

/-- Root-level assignment `templateJson[key] = value` (`CloudRF.py:137`):
requires the template to be a dict, otherwise Python raises `TypeError`. -/
def setRoot (t : Json) (k v : String) : Except MergeError Json :=
  match t with
  | .obj kvs => .ok (.obj (setKey kvs k (.str v)))
  | _ => .error .typeError

/-- Nested assignment `templateJson[a][b] = value` (`CloudRF.py:135`):
`templateJson[a]` raises `KeyError` when `a` is absent, and the
subsequent item assignment raises `TypeError` unless `templateJson[a]`
is itself a dict.  On success the inner dict is updated. -/
def setNested (t : Json) (a b v : String) : Except MergeError Json :=
  match t with
  | .obj kvs =>
    match getKey kvs a with
    | none => .error (.keyError a)
    | some (.obj inner) =>
      .ok (.obj (setKey kvs a (.obj (setKey inner b (.str v)))))
    | some _ => .error .typeError
  | _ => .error .typeError

/-- One iteration of the loop body of `CloudRF.__customiseJsonFromCsvRow`
(`CloudRF.py:129-139`): split the CSV header on dots; two segments update
the nested field, one segment updates the root field (using the original
key, as line 137 does), and anything else is the classified maximum-depth
`sys.exit`. -/
def customiseOne (t : Json) (key value : String) : Except MergeError Json :=
  match pySplit key '.' with
  | [a, b] => setNested t a b value
  | [_] => setRoot t key value
  | _ => .error .maxDepthExit

/-- `CloudRF.__customiseJsonFromCsvRow` (`CloudRF.py:128-141`): fold the
loop body over the row's (header, value) pairs in order.  The Python code
mutates `templateJson` in place and returns the same object; the embedding
threads the updated value instead, and the caller models the aliasing. -/
def customiseJsonFromCsvRow (templateJson : Json)
    (csvRowDictionary : List (String × String)) : Except MergeError Json :=
  match csvRowDictionary with
  | [] => .ok templateJson
  | (key, value) :: rest => do
    let t' ← customiseOne templateJson key value
    customiseJsonFromCsvRow t' rest

/-- The three classified `sys.exit` sites of `CloudRF.__validateApiKey`
(`CloudRF.py:143-154`), in the order the code checks them. -/
inductive ApiKeyError where
  | wrongPartCount : ApiKeyError
  | nonNumericUid : ApiKeyError
  | badTokenLength : ApiKeyError

/-- `CloudRF.__validateApiKey` (`CloudRF.py:143-154`): split the key on
dashes; exit unless that yields exactly two parts, then exit unless the
first part is numeric, then exit unless the second part has exactly 40
characters. -/
def validateApiKey (apiKey : String) : Except ApiKeyError Unit :=
  match pySplit apiKey '-' with
  | [uid, token] =>
    if !pyIsNumeric uid then .error .nonNumericUid
    else if token.length ≠ 40 then .error .badTokenLength
    else .ok ()
  | _ => .error .wrongPartCount

/-- The two classified validation failures raised (as `AttributeError`,
then caught and turned into `sys.exit`) by `CloudRF.__validateCsv`
(`CloudRF.py:164-173`). -/
inductive CsvError where
  | malformedCsvRow : CsvError
  | excessiveNestingDepth (depth : Nat) : CsvError

/-- A CSV row as produced by `csv.DictReader`: the (header, value) pairs
in header order. -/
abbrev CsvRow := List (String × String)

/-- The per-pair checks of the inner loop of `CloudRF.__validateCsv`
(`CloudRF.py:165-173`): an empty header or empty value raises the
malformed-row error, then a header of dot-notation depth above 2 raises
the nesting-depth error (reporting the depth found). -/
def checkPair (key value : String) : Except CsvError Unit :=
  if key.data.isEmpty || value.data.isEmpty then .error .malformedCsvRow
  else
    let parts := pySplit key '.'
    if 2 < parts.length then .error (.excessiveNestingDepth parts.length)
    else .ok ()

/-- The inner loop of `CloudRF.__validateCsv` over one row's pairs in
order; the first offending pair aborts. -/
def checkRow : CsvRow → Except CsvError Unit
  | [] => .ok ()
  | (key, value) :: rest =>
    match checkPair key value with
    | .error e => .error e
    | .ok _ => checkRow rest

/-- The row loop of `CloudRF.__validateCsv` (`CloudRF.py:159-177`): each
validated row is appended to the return list; any failure is fatal to the
whole validation (the raised `AttributeError` is caught and turned into
`sys.exit` before any HTTP request is made). -/
def validateCsvRows : List CsvRow → Except CsvError (List CsvRow)
  | [] => .ok []
  | row :: rest =>
    match checkRow row with
    | .error e => .error e
    | .ok _ =>
      match validateCsvRows rest with
      | .error e => .error e
      | .ok tail => .ok (row :: tail)

/-- The classified `sys.exit` of `CloudRF.__validateRequestType`
(`CloudRF.py:231`). -/
inductive RequestTypeError where
  | unsupportedRequestType : RequestTypeError

/-- The allow-list of `CloudRF.__validateRequestType` (`CloudRF.py:226`). -/
def allowedRequestTypes : List String := ["area"]

/-- Python truthiness of `self.requestType`, which is `None` or a string:
`None` and the empty string are falsy. -/
def pyTruthy : Option String → Bool
  | none => false
  | some s => !s.data.isEmpty

/-- Membership test `self.requestType in allowedRequestTypes`
(`CloudRF.py:228`). -/
def requestTypeAllowed : Option String → Bool
  | none => false
  | some s => allowedRequestTypes.contains s

/-- `CloudRF.__validateRequestType` (`CloudRF.py:225-231`): passes only
when `self.requestType` is truthy and in the allow-list, otherwise the
classified unsupported-request-type `sys.exit`. -/
def validateRequestType (requestType : Option String) :
    Except RequestTypeError Unit :=
  if pyTruthy requestType && requestTypeAllowed requestType then .ok ()
  else .error .unsupportedRequestType

/-- URL constant `CloudRF.URL_GITHUB` (`CloudRF.py:25`). -/
def urlGithub : String := "https://github.com/Cloud-RF/CloudRF-API-clients"

/-- What `CloudRF.__checkHttpResponse` decides: fall through (status 200)
or terminate the process via `sys.exit` with a classified message. -/
inductive Outcome where
  | proceed : Outcome
  | fatalExit (msg : String) : Outcome

/-- Result of the HTTP response classifier: the lines printed to the
user, in order, and whether execution proceeds or halts. -/
structure CheckResult where
  printed : List String
  outcome : Outcome

/-- The classified exit message chosen by the status-code ladder of
`CloudRF.__checkHttpResponse` (`CloudRF.py:117-126`). -/
def httpExitMessage (httpStatusCode : Nat) : String :=
  if httpStatusCode = 400 then
    "HTTP 400 refers to a bad request. You likely have bad values in your input JSON/CSV. For good examples please consult " ++ urlGithub
  else if httpStatusCode = 401 then
    "HTTP 401 refers to an unauthorised request. Your API key is likely incorrect."
  else if httpStatusCode = 403 then
    "HTTP 403 refers to a forbidden request. Your API key appears to be correct but you do not appear to have permission to make your request."
  else if httpStatusCode = 500 then
    "HTTP 500 refers to an issue with the server. A problem with the CloudRF API service appears to have occurred."
  else
    "An unknown HTTP error has occured. Please consult the above response from the CloudRF API, or " ++ urlGithub

/-- `CloudRF.__checkHttpResponse` (`CloudRF.py:112-126`): status 200 prints
nothing and proceeds; any other status prints a generic error line followed
by the raw response body, then performs the classified `sys.exit` for that
status. -/
def checkHttpResponse (httpStatusCode : Nat) (httpRawResponse : String) :
    CheckResult :=
  if httpStatusCode ≠ 200 then
    ⟨["An HTTP " ++ toString httpStatusCode ++ " error occurred with your request. Full response from the CloudRF API is listed below.",
      httpRawResponse],
     .fatalExit (httpExitMessage httpStatusCode)⟩
  else ⟨[], .proceed⟩

/-- Observable result of a run of the request pipeline: the request bodies
sent over HTTP in order, the classifier's printed lines, and whether the
run was cut short by a fatal exit (classified `sys.exit` or uncaught
exception) before completing normally. -/
structure ProgramResult where
  sent : List Json
  printed : List String
  halted : Bool

/-- `CloudRF.__calculate` for one prepared body (`CloudRF.py:87-110`),
network transport abstracted: the response to the `i`-th request of the
run is supplied by `resp`, the body is sent unconditionally, and the
classifier then decides whether the process halts. -/
def calculateOne (resp : Nat → Nat × String) (body : Json) (i : Nat) :
    ProgramResult :=
  let c := checkHttpResponse (resp i).1 (resp i).2
  ⟨[body], c.printed, match c.outcome with
    | .proceed => false
    | .fatalExit _ => true⟩

/-- The CSV batch loop of `CloudRF.__init__` (`CloudRF.py:55-59`), with
`i` the index of the next request.  Each iteration customises
`self.__jsonTemplate` — which the Python code mutates in place, so the
template passed to the next iteration is the customised value, not the
original — then sends it and runs the classifier; a merge failure or a
non-200 response halts before any further row is processed. -/
def runBatchGo (resp : Nat → Nat × String) :
    Json → List CsvRow → Nat → ProgramResult
  | _, [], _ => ⟨[], [], false⟩
  | t, row :: rest, i =>
    match customiseJsonFromCsvRow t row with
    | .error _ => ⟨[], [], true⟩
    | .ok t' =>
      let c := checkHttpResponse (resp i).1 (resp i).2
      match c.outcome with
      | .fatalExit _ => ⟨[t'], c.printed, true⟩
      | .proceed =>
        let r := runBatchGo resp t' rest (i + 1)
        ⟨t' :: r.sent, c.printed ++ r.printed, r.halted⟩

/-- The validation-then-dispatch pipeline of `CloudRF.__init__`
(`CloudRF.py:47-62`), with filesystem collaborators abstracted: the
loaded template and the parsed CSV rows (`none` when `--input-csv` was
not given) are inputs.  Request-type and API-key validation run first and
halt with nothing sent on failure; CSV validation likewise.  Line 53's
`if self.__arguments.input_csv and self.__csvInputList:` sends one
request per CSV row only when a CSV was supplied and its row list is
non-empty (a falsy empty list falls back to the single-request branch),
and otherwise sends exactly one request with the unmodified template. -/
def runProgram (requestType : Option String) (apiKey : String)
    (template : Json) (inputCsv : Option (List CsvRow))
    (resp : Nat → Nat × String) : ProgramResult :=
  match validateRequestType requestType with
  | .error _ => ⟨[], [], true⟩
  | .ok _ =>
    match validateApiKey apiKey with
    | .error _ => ⟨[], [], true⟩
    | .ok _ =>
      match inputCsv with
      | none => calculateOne resp template 0
      | some rows =>
        match validateCsvRows rows with
        | .error _ => ⟨[], [], true⟩
        | .ok csvInputList =>
          if csvInputList.isEmpty then calculateOne resp template 0
          else runBatchGo resp template csvInputList 0

/-! Helper lemmas about dict lookup and assignment. -/

theorem getKey_setKey_self (kvs : List (String × Json)) (k : String) (v : Json) :
    getKey (setKey kvs k v) k = some v := by
  induction kvs with
  | nil => simp [getKey, setKey]
  | cons p rest ih =>
    obtain ⟨k', v'⟩ := p
    by_cases h : k' = k
    · simp [getKey, setKey, h]
    · simp [getKey, setKey, h, ih]

theorem getKey_setKey_ne (kvs : List (String × Json)) (k k' : String) (v : Json)
    (h : k' ≠ k) : getKey (setKey kvs k v) k' = getKey kvs k' := by
  induction kvs with
  | nil => simp [getKey, setKey, Ne.symm h]
  | cons p rest ih =>
    obtain ⟨k₀, v₀⟩ := p
    by_cases h₀ : k₀ = k
    · subst h₀
      simp [getKey, setKey, Ne.symm h]
    · simp only [setKey, if_neg h₀, getKey]
      by_cases h₁ : k₀ = k'
      · simp [h₁]
      · simp [h₁, ih]

/-- C1: the claim states that the loaded template is read-only and is
cloned into each row's PreparedRequest, so row i's overrides never reach
row i+1.  The code instead mutates `self.__jsonTemplate` in place
(`CloudRF.py:135,137` assign into the dict passed at line 57), and this
theorem evaluates the batch loop at a concrete input where that is
observable even though both CSV rows are identical (as `csv.DictReader`
rows, sharing headers `a.b` and `a`, are): row 1 overwrites root key `a`
with the string "2", so the template entering row 2 is
`{"a": "2"}` rather than the loaded `{"a": {"b": 0}}`, row 2's nested
assignment `a.b` then hits a string and raises an uncaught `TypeError`,
and the batch sends only row 1's request and halts — whereas building row
2 from a pristine clone would succeed exactly as row 1 did. -/
theorem templateMutationObservableAcrossRows :
    customiseJsonFromCsvRow (.obj [("a", .obj [("b", .num 0)])])
        [("a.b", "1"), ("a", "2")]
      = .ok (.obj [("a", .str "2")]) ∧
    customiseJsonFromCsvRow (.obj [("a", .str "2")])
        [("a.b", "1"), ("a", "2")]
      = .error .typeError ∧
    (runBatchGo (fun _ => (200, ""))
        (.obj [("a", .obj [("b", .num 0)])])
        [[("a.b", "1"), ("a", "2")], [("a.b", "1"), ("a", "2")]] 0)
      = ⟨[.obj [("a", .str "2")]], [], true⟩ := by
  refine ⟨rfl, rfl, rfl⟩

/-- C8: merging template `{"transmitter": {"lat": 1.0, "lon": 2.0}}` with
the CSV row `{"transmitter.lat": "5.5"}` stores the raw CSV string "5.5"
at `transmitter.lat` (no type coercion), and in general a nested override
stores `Json.str value` at `template[a][b]` while leaving every other key
of the inner object and every other root key of the template unchanged. -/
theorem mergeAppliesRawStringAndPreservesFrame :
    customiseJsonFromCsvRow
        (.obj [("transmitter", .obj [("lat", .num 1), ("lon", .num 2)])])
        [("transmitter.lat", "5.5")]
      = .ok (.obj [("transmitter",
          .obj [("lat", .str "5.5"), ("lon", .num 2)])]) ∧
    (∀ kvs inner a b value, getKey kvs a = some (.obj inner) →
      setNested (.obj kvs) a b value
          = .ok (.obj (setKey kvs a (.obj (setKey inner b (.str value))))) ∧
      getKey (setKey inner b (.str value)) b = some (.str value) ∧
      (∀ k', k' ≠ b →
        getKey (setKey inner b (.str value)) k' = getKey inner k') ∧
      (∀ k', k' ≠ a →
        getKey (setKey kvs a (.obj (setKey inner b (.str value)))) k'
          = getKey kvs k')) := by
  refine ⟨rfl, ?_⟩
  intro kvs inner a b value h
  refine ⟨by simp [setNested, h], getKey_setKey_self _ _ _,
    fun k' hk' => getKey_setKey_ne _ _ _ _ hk',
    fun k' hk' => getKey_setKey_ne _ _ _ _ hk'⟩

/-- Witness for the universally quantified part of
`mergeAppliesRawStringAndPreservesFrame` at the spec's own example:
the inner frame key `lon` and an unrelated root key `receiver` are
untouched by the `transmitter.lat` override. -/
theorem mergeAppliesRawStringAndPreservesFrame_witness :
    setNested (.obj [("transmitter", .obj [("lat", .num 1), ("lon", .num 2)]),
        ("receiver", .num 7)]) "transmitter" "lat" "5.5"
      = .ok (.obj [("transmitter",
          .obj [("lat", .str "5.5"), ("lon", .num 2)]), ("receiver", .num 7)]) ∧
    getKey [("lat", Json.str "5.5"), ("lon", Json.num 2)] "lon"
      = some (.num 2) := by
  have h := mergeAppliesRawStringAndPreservesFrame.2
    [("transmitter", .obj [("lat", .num 1), ("lon", .num 2)]),
      ("receiver", .num 7)]
    [("lat", .num 1), ("lon", .num 2)] "transmitter" "lat" "5.5" rfl
  exact ⟨h.1, (h.2.2.1 "lon" (by decide)).trans rfl⟩

/-- C9: applying zero overrides is the identity: an empty override row
returns the template unchanged, and in the no-CSV run (request type and
API key validation passing) exactly one request is sent whose body is the
unmodified loaded template. -/
theorem zeroOverridesIdentity :
    (∀ t, customiseJsonFromCsvRow t [] = .ok t) ∧
    (∀ rt apiKey t resp, validateRequestType rt = .ok () →
      validateApiKey apiKey = .ok () →
      (runProgram rt apiKey t none resp).sent = [t]) := by
  refine ⟨fun t => rfl, ?_⟩
  intro rt apiKey t resp h1 h2
  simp [runProgram, h1, h2, calculateOne]

/-- Witness for `zeroOverridesIdentity`: a concrete no-CSV run with valid
request type and API key sends exactly the template. -/
theorem zeroOverridesIdentity_witness :
    (runProgram (some "area") "12345-abcdefabcdefabcdefabcdefabcdefabcdefabcd"
        (.obj [("site", .str "A")]) none (fun _ => (200, "ok"))).sent
      = [.obj [("site", .str "A")]] :=
  zeroOverridesIdentity.2 (some "area")
    "12345-abcdefabcdefabcdefabcdefabcdefabcdefabcd"
    (.obj [("site", .str "A")]) (fun _ => (200, "ok")) rfl rfl

/-- C10: a CSV with a header row but zero data rows validates to the
empty row list, and — because line 53 tests the truthiness of
`self.__csvInputList`, and an empty Python list is falsy — the run falls
back to the no-CSV branch, sending exactly one request whose body is the
unmodified template rather than zero requests. -/
theorem emptyCsvFallsBackToSingleRequest :
    validateCsvRows [] = .ok [] ∧
    (∀ rt apiKey t resp, validateRequestType rt = .ok () →
      validateApiKey apiKey = .ok () →
      (runProgram rt apiKey t (some []) resp).sent = [t]) := by
  refine ⟨rfl, ?_⟩
  intro rt apiKey t resp h1 h2
  simp [runProgram, h1, h2, validateCsvRows, calculateOne]

/-- Witness for `emptyCsvFallsBackToSingleRequest`: a concrete run with a
supplied-but-empty CSV row list sends exactly one request, the template. -/
theorem emptyCsvFallsBackToSingleRequest_witness :
    (runProgram (some "area") "12345-abcdefabcdefabcdefabcdefabcdefabcdefabcd"
        (.obj [("site", .str "A")]) (some []) (fun _ => (200, "ok"))).sent
      = [.obj [("site", .str "A")]] :=
  emptyCsvFallsBackToSingleRequest.2 (some "area")
    "12345-abcdefabcdefabcdefabcdefabcdefabcdefabcd"
    (.obj [("site", .str "A")]) (fun _ => (200, "ok")) rfl rfl

/-- C2: dispatch of an override key on its dot-notation depth
(`CloudRF.py:131-139`): one segment sets the root-level field named by the
key to the row's value; two segments `a.b` set the nested field
`template[a][b]` (here under the C3 proviso that `template[a]` is an
object); more than two segments always hit the classified maximum-depth
`sys.exit`, for every template value and every override value. -/
theorem dotNotationDispatch (t : List (String × Json)) (key value : String) :
    ((pySplit key '.').length = 1 →
      ∃ kvs', customiseOne (.obj t) key value = .ok (.obj kvs') ∧
        getKey kvs' key = some (.str value)) ∧
    (∀ a b inner, pySplit key '.' = [a, b] →
      getKey t a = some (.obj inner) →
      ∃ kvs' inner', customiseOne (.obj t) key value = .ok (.obj kvs') ∧
        getKey kvs' a = some (.obj inner') ∧
        getKey inner' b = some (.str value)) ∧
    (2 < (pySplit key '.').length →
      ∀ u : Json, customiseOne u key value = .error .maxDepthExit) := by
  refine ⟨?_, ?_, ?_⟩
  · intro hlen
    rcases List.length_eq_one.mp hlen with ⟨s, hs⟩
    refine ⟨setKey t key (.str value), ?_, getKey_setKey_self _ _ _⟩
    simp [customiseOne, hs, setRoot]
  · intro a b inner hs hget
    refine ⟨setKey t a (.obj (setKey inner b (.str value))),
      setKey inner b (.str value), ?_, getKey_setKey_self _ _ _,
      getKey_setKey_self _ _ _⟩
    simp [customiseOne, hs, setNested, hget]
  · intro hlen u
    rcases hs : pySplit key '.' with _ | ⟨a, _ | ⟨b, _ | ⟨c, rest⟩⟩⟩ <;>
        rw [hs] at hlen
    · simp at hlen
    · simp at hlen
    · simp at hlen
    · simp [customiseOne, hs]

/-- Witness for `dotNotationDispatch` at concrete keys of each depth:
`frequency` (depth 1), `transmitter.lat` (depth 2) and `a.b.c`
(depth 3, classified maximum-depth exit even on a non-object template). -/
theorem dotNotationDispatch_witness :
    (∃ kvs', customiseOne (.obj [("frequency", .num 460)]) "frequency" "915"
        = .ok (.obj kvs') ∧ getKey kvs' "frequency" = some (.str "915")) ∧
    (∃ kvs' inner',
      customiseOne (.obj [("transmitter", .obj [("lat", .num 1)])])
          "transmitter.lat" "5.5" = .ok (.obj kvs') ∧
        getKey kvs' "transmitter" = some (.obj inner') ∧
        getKey inner' "lat" = some (.str "5.5")) ∧
    customiseOne (.num 3) "a.b.c" "v" = .error .maxDepthExit := by
  refine ⟨(dotNotationDispatch [("frequency", .num 460)] "frequency" "915").1
      (by decide),
    (dotNotationDispatch [("transmitter", .obj [("lat", .num 1)])]
        "transmitter.lat" "5.5").2.1 "transmitter" "lat" [("lat", .num 1)]
      (by decide) rfl,
    (dotNotationDispatch [] "a.b.c" "v").2.2 (by decide) (.num 3)⟩

/-- C3 counterexample: the claim says a 2-segment override whose parent
`template[a]` is absent or not a mapping fails with the classified
`InvalidOverridePath` exit.  No such classified failure exists in the
code: at the concrete inputs below, `templateJson["a"]` is absent
(Python raises an uncaught `KeyError`) or a string (Python raises an
uncaught `TypeError` on item assignment), both terminating with a
traceback, not a classified `sys.exit` — `isClassifiedExit` is false for
both, the only classified merge exit being the maximum-depth one. -/
theorem nestedOverrideUnclassified_counterexample :
    customiseOne (.obj [("x", .num 0)]) "a.b" "v" = .error (.keyError "a") ∧
    customiseOne (.obj [("a", .str "s")]) "a.b" "v" = .error .typeError ∧
    (MergeError.keyError "a").isClassifiedExit = false ∧
    MergeError.typeError.isClassifiedExit = false :=
  ⟨rfl, rfl, rfl, rfl⟩

/-- C3 amended: a 2-segment override `a.b` sets `template[a][b]` when
`template[a]` is an object; when the key `a` is absent the merge fails
with an uncaught `KeyError`, and when `template[a]` is any non-object
value it fails with an uncaught `TypeError` — and every failure of a
2-segment override is such an unclassified exception, never a classified
`sys.exit` (the code has no `InvalidOverridePath` classification). -/
theorem nestedOverrideParentBehaviour (t : List (String × Json))
    (key a b value : String) (hs : pySplit key '.' = [a, b]) :
    (∀ inner, getKey t a = some (.obj inner) →
      customiseOne (.obj t) key value
        = .ok (.obj (setKey t a (.obj (setKey inner b (.str value)))))) ∧
    (getKey t a = none →
      customiseOne (.obj t) key value = .error (.keyError a)) ∧
    (∀ j, getKey t a = some j → (∀ inner, j ≠ .obj inner) →
      customiseOne (.obj t) key value = .error .typeError) ∧
    (∀ e, customiseOne (.obj t) key value = .error e →
      e.isClassifiedExit = false) := by
  refine ⟨?_, ?_, ?_, ?_⟩
  · intro inner hget
    simp [customiseOne, hs, setNested, hget]
  · intro hget
    simp [customiseOne, hs, setNested, hget]
  · intro j hget hnot
    cases j with
    | obj kvs => exact absurd rfl (hnot kvs)
    | _ => simp [customiseOne, hs, setNested, hget]
  · intro e he
    rcases hget : getKey t a with _ | j
    · have h2 : customiseOne (.obj t) key value = .error (.keyError a) := by
        simp [customiseOne, hs, setNested, hget]
      rw [h2] at he
      injection he with he2
      subst he2
      rfl
    · have h3 : customiseOne (.obj t) key value = .error .typeError ∨
          ∃ u, customiseOne (.obj t) key value = .ok u := by
        cases j <;> simp [customiseOne, hs, setNested, hget]
      rcases h3 with h3 | ⟨u, h3⟩ <;> rw [h3] at he
      · injection he with he2
        subst he2
        rfl
      · exact Except.noConfusion he

/-- Witness for `nestedOverrideParentBehaviour` at concrete inputs: the
three parent shapes (object, absent, non-object string) and the
unclassified nature of a concrete failure. -/
theorem nestedOverrideParentBehaviour_witness :
    customiseOne (.obj [("a", .obj [("c", .num 0)])]) "a.b" "v"
      = .ok (.obj [("a", .obj [("c", .num 0), ("b", .str "v")])]) ∧
    customiseOne (.obj []) "a.b" "v" = .error (.keyError "a") ∧
    customiseOne (.obj [("a", .num 9)]) "a.b" "v" = .error .typeError ∧
    MergeError.typeError.isClassifiedExit = false := by
  have h1 := (nestedOverrideParentBehaviour [("a", .obj [("c", .num 0)])]
      "a.b" "a" "b" "v" (by decide)).1 [("c", .num 0)] rfl
  have h2 := (nestedOverrideParentBehaviour [] "a.b" "a" "b" "v"
      (by decide)).2.1 rfl
  have h3 := (nestedOverrideParentBehaviour [("a", .num 9)] "a.b" "a" "b" "v"
      (by decide)).2.2.1 (.num 9) rfl (fun inner h => Json.noConfusion h)
  have h4 := (nestedOverrideParentBehaviour [("a", .num 9)] "a.b" "a" "b" "v"
      (by decide)).2.2.2 _ h3
  exact ⟨h1, h2, h3, h4⟩

/-- C4: an API key passes `CloudRF.__validateApiKey` exactly when
splitting it on dashes yields two parts with a numeric first part and a
40-character second part; every other shape hits one of the classified
invalid-format exits.  The spec's three vectors are checked concretely:
the well-formed key validates, a short token fails, and a non-numeric
UID fails. -/
theorem apiKeyValidation :
    (∀ apiKey, validateApiKey apiKey = .ok () ↔
      ∃ uid token, pySplit apiKey '-' = [uid, token] ∧
        pyIsNumeric uid = true ∧ token.length = 40) ∧
    validateApiKey "12345-abcdefabcdefabcdefabcdefabcdefabcdefabcd"
      = .ok () ∧
    validateApiKey "12345-short" = .error .badTokenLength ∧
    validateApiKey "abc-abcdefabcdefabcdefabcdefabcdefabcdefabcd"
      = .error .nonNumericUid := by
  refine ⟨?_, rfl, rfl, rfl⟩
  intro apiKey
  constructor
  · intro h
    rcases hp : pySplit apiKey '-' with _ | ⟨u, _ | ⟨tk, rest⟩⟩
    · rw [validateApiKey, hp] at h
      exact Except.noConfusion h
    · rw [validateApiKey, hp] at h
      exact Except.noConfusion h
    · cases rest with
      | cons c rest' =>
        rw [validateApiKey, hp] at h
        exact Except.noConfusion h
      | nil =>
        rw [validateApiKey, hp] at h
        by_cases hn : pyIsNumeric u
        · by_cases hl : tk.length = 40
          · exact ⟨u, tk, rfl, hn, hl⟩
          · simp [hn, hl] at h
        · simp [hn] at h
  · rintro ⟨uid, token, hp, hn, hl⟩
    rw [validateApiKey, hp]
    simp [hn, hl]

/-- Witness for the biconditional of `apiKeyValidation`: instantiated at
the spec's well-formed key, whose split, numeric UID and 40-character
token are checked concretely. -/
theorem apiKeyValidation_witness :
    validateApiKey "12345-abcdefabcdefabcdefabcdefabcdefabcdefabcd"
      = .ok () :=
  (apiKeyValidation.1 "12345-abcdefabcdefabcdefabcdefabcdefabcdefabcd").mpr
    ⟨"12345", "abcdefabcdefabcdefabcdefabcdefabcdefabcd",
      by decide, by decide, by decide⟩

/-- C7: request-type validation (`CloudRF.py:225-231`): `"area"` passes
the allow-list `['area']`; every other value — including `None` (the
class default, when a subclass sets no request type) and the falsy empty
string — hits the classified unsupported-request-type exit; and when
that validation fails, the run (`CloudRF.py:47` runs it before any
dispatch) halts with no request sent. -/
theorem requestTypeAllowList :
    validateRequestType (some "area") = .ok () ∧
    (∀ rt, rt ≠ some "area" →
      validateRequestType rt = .error .unsupportedRequestType) ∧
    (∀ rt apiKey t inputCsv resp,
      validateRequestType rt = .error .unsupportedRequestType →
      (runProgram rt apiKey t inputCsv resp).sent = [] ∧
        (runProgram rt apiKey t inputCsv resp).halted = true) := by
  refine ⟨rfl, ?_, ?_⟩
  · intro rt h
    cases rt with
    | none => rfl
    | some s =>
      have hs : s ≠ "area" := fun hh => h (by rw [hh])
      simp [validateRequestType, pyTruthy, requestTypeAllowed,
        allowedRequestTypes, hs]
  · intro rt apiKey t inputCsv resp h
    constructor <;> simp [runProgram, h]

/-- Witness for `requestTypeAllowList` at the spec's own example value
`"elevation"`, which is not in the allow-list: validation fails and the
run sends nothing. -/
theorem requestTypeAllowList_witness :
    validateRequestType (some "elevation")
      = .error .unsupportedRequestType ∧
    (runProgram (some "elevation")
        "12345-abcdefabcdefabcdefabcdefabcdefabcdefabcd"
        (.obj []) none (fun _ => (200, "ok"))).sent = [] := by
  have h1 := requestTypeAllowList.2.1 (some "elevation") (by decide)
  exact ⟨h1, (requestTypeAllowList.2.2 (some "elevation")
    "12345-abcdefabcdefabcdefabcdefabcdefabcdefabcd"
    (.obj []) none (fun _ => (200, "ok")) h1).1⟩

/-- C5: the HTTP response classifier and its effect on the batch loop:
status 200 prints nothing and proceeds; any non-200 status surfaces the
raw response body to the user (it is among the printed lines) and ends in
the classified fatal exit for that status.  In the batch loop, a row
whose response is non-200 halts the run with only that row's request
sent, for every list of remaining rows — there is no continue-on-error
mode — while a 200 response continues with the next row against the
(in-place customised) template. -/
theorem httpResponseClassification :
    (∀ body, (checkHttpResponse 200 body).outcome = .proceed ∧
      (checkHttpResponse 200 body).printed = []) ∧
    (∀ status body, status ≠ 200 →
      (checkHttpResponse status body).outcome
          = .fatalExit (httpExitMessage status) ∧
        body ∈ (checkHttpResponse status body).printed) ∧
    (∀ resp t row rest t' i, customiseJsonFromCsvRow t row = .ok t' →
      (resp i).1 ≠ 200 →
      (runBatchGo resp t (row :: rest) i).sent = [t'] ∧
        (runBatchGo resp t (row :: rest) i).halted = true ∧
        (resp i).2 ∈ (runBatchGo resp t (row :: rest) i).printed) ∧
    (∀ resp t row rest t' i, customiseJsonFromCsvRow t row = .ok t' →
      (resp i).1 = 200 →
      (runBatchGo resp t (row :: rest) i).sent
          = t' :: (runBatchGo resp t' rest (i + 1)).sent ∧
        (runBatchGo resp t (row :: rest) i).halted
          = (runBatchGo resp t' rest (i + 1)).halted) := by
  refine ⟨fun body => ⟨rfl, rfl⟩, ?_, ?_, ?_⟩
  · intro status body h
    constructor
    · simp [checkHttpResponse, h]
    · simp [checkHttpResponse, h]
  · intro resp t row rest t' i hm h
    refine ⟨?_, ?_, ?_⟩ <;> simp [runBatchGo, hm, checkHttpResponse, h]
  · intro resp t row rest t' i hm h
    constructor <;> simp [runBatchGo, hm, checkHttpResponse, h]

/-- Witness for `httpResponseClassification`: a concrete 401 response to
the first row of a two-row batch surfaces the body, halts with exactly
one request sent, and a concrete 200 response proceeds to the second
row. -/
theorem httpResponseClassification_witness :
    ((checkHttpResponse 401 "denied").outcome
        = .fatalExit (httpExitMessage 401) ∧
      "denied" ∈ (checkHttpResponse 401 "denied").printed) ∧
    ((runBatchGo (fun _ => (401, "denied")) (.obj [("a", .num 1)])
          [[("a", "x")], [("a", "y")]] 0).sent = [.obj [("a", .str "x")]] ∧
      (runBatchGo (fun _ => (401, "denied")) (.obj [("a", .num 1)])
          [[("a", "x")], [("a", "y")]] 0).halted = true) ∧
    (runBatchGo (fun _ => (200, "ok")) (.obj [("a", .num 1)])
          [[("a", "x")], [("a", "y")]] 0).sent
      = .obj [("a", .str "x")]
          :: (runBatchGo (fun _ => (200, "ok")) (.obj [("a", .str "x")])
              [[("a", "y")]] 1).sent := by
  have h2 := httpResponseClassification.2.1 401 "denied" (by decide)
  have h3 := httpResponseClassification.2.2.1 (fun _ => (401, "denied"))
    (.obj [("a", .num 1)]) [("a", "x")] [[("a", "y")]]
    (.obj [("a", .str "x")]) 0 rfl (by decide)
  have h4 := httpResponseClassification.2.2.2 (fun _ => (200, "ok"))
    (.obj [("a", .num 1)]) [("a", "x")] [[("a", "y")]]
    (.obj [("a", .str "x")]) 0 rfl rfl
  exact ⟨⟨h2.1, h2.2⟩, ⟨h3.1, h3.2.1⟩, h4.1⟩

/-! Helper lemmas for CSV validation. -/

theorem string_eq_empty_iff_data (s : String) : s = "" ↔ s.data = [] := by
  cases s with
  | mk l =>
    constructor
    · intro h
      rw [h]
    · intro h
      have hl : l = [] := h
      rw [hl]

theorem checkPair_ok_iff (k v : String) :
    checkPair k v = .ok () ↔
      ¬k = "" ∧ ¬v = "" ∧ (pySplit k '.').length ≤ 2 := by
  simp only [string_eq_empty_iff_data]
  unfold checkPair
  split
  next h =>
    simp only [Bool.or_eq_true, List.isEmpty_iff] at h
    constructor
    · intro he
      exact Except.noConfusion he
    · rintro ⟨h1, h2, _⟩
      rcases h with h | h
      · exact absurd h h1
      · exact absurd h h2
  next h =>
    simp only [Bool.or_eq_true, List.isEmpty_iff] at h
    push_neg at h
    dsimp only
    split
    next hd =>
      constructor
      · intro he
        exact Except.noConfusion he
      · rintro ⟨_, _, hle⟩
        omega
    next hd =>
      constructor
      · intro _
        exact ⟨h.1, h.2, by omega⟩
      · intro _
        rfl

theorem checkRow_ok_iff (r : CsvRow) :
    checkRow r = .ok () ↔ ∀ p ∈ r, checkPair p.1 p.2 = .ok () := by
  induction r with
  | nil => simp [checkRow]
  | cons p rest ih =>
    obtain ⟨k, v⟩ := p
    rcases hcp : checkPair k v with e | u
    · simp only [checkRow, hcp]
      constructor
      · intro he
        exact Except.noConfusion he
      · intro hall
        have := hall (k, v) (List.mem_cons_self _ _)
        rw [hcp] at this
        exact Except.noConfusion this
    · cases u
      simp only [checkRow, hcp, ih]
      constructor
      · intro hall p hp
        rcases List.mem_cons.mp hp with h | h
        · rw [h]
          exact hcp
        · exact hall p h
      · intro hall p hp
        exact hall p (List.mem_cons_of_mem _ hp)

theorem validateCsvRows_cases (rows : List CsvRow) :
    (validateCsvRows rows = .ok rows ∧ ∀ r ∈ rows, checkRow r = .ok ()) ∨
    ((∃ e, validateCsvRows rows = .error e) ∧
      ¬∀ r ∈ rows, checkRow r = .ok ()) := by
  induction rows with
  | nil => exact Or.inl ⟨rfl, by simp⟩
  | cons row rest ih =>
    rcases hc : checkRow row with e | u
    · refine Or.inr ⟨⟨e, by simp [validateCsvRows, hc]⟩, fun hall => ?_⟩
      have := hall row (List.mem_cons_self _ _)
      rw [hc] at this
      exact Except.noConfusion this
    · cases u
      rcases ih with ⟨hok, hall⟩ | ⟨⟨e, he⟩, hnall⟩
      · refine Or.inl ⟨by simp [validateCsvRows, hc, hok], ?_⟩
        intro r hr
        rcases List.mem_cons.mp hr with h | h
        · rw [h]
          exact hc
        · exact hall r h
      · refine Or.inr ⟨⟨e, by simp [validateCsvRows, hc, he]⟩, fun hall => ?_⟩
        exact hnall fun r hr => hall r (List.mem_cons_of_mem _ hr)

/-- C6: CSV validation (`CloudRF.__validateCsv`): when every (header,
value) pair of every row has a non-empty header, a non-empty value and a
header of dot-notation depth at most 2, validation returns exactly the
rows, in order; any empty header or value anywhere makes it fail, as
does any header of depth above 2; at the level of a single pair the
failure is classified malformed-row exactly for emptiness, and
excessive-nesting-depth (reporting the offending depth, above 2) exactly
for a too-deep header of a non-empty pair (the emptiness check runs
first).  Finally, a CSV validation failure aborts the run with no HTTP
request sent, since `CloudRF.py:51` validates before the dispatch loop. -/
theorem csvValidation :
    (∀ rows, (∀ r ∈ rows, ∀ p ∈ r, ¬p.1 = "" ∧ ¬p.2 = "" ∧
        (pySplit p.1 '.').length ≤ 2) →
      validateCsvRows rows = .ok rows) ∧
    (∀ rows r p, r ∈ rows → p ∈ r → (p.1 = "" ∨ p.2 = "") →
      ∃ e, validateCsvRows rows = .error e) ∧
    (∀ rows r p, r ∈ rows → p ∈ r → 2 < (pySplit p.1 '.').length →
      ∃ e, validateCsvRows rows = .error e) ∧
    (∀ k v, (checkPair k v = .error .malformedCsvRow ↔ (k = "" ∨ v = "")) ∧
      (∀ d, checkPair k v = .error (.excessiveNestingDepth d) ↔
        (¬k = "" ∧ ¬v = "" ∧ (pySplit k '.').length = d ∧ 2 < d))) ∧
    (∀ rt apiKey t rows resp e, validateCsvRows rows = .error e →
      (runProgram rt apiKey t (some rows) resp).sent = []) := by
  refine ⟨?_, ?_, ?_, ?_, ?_⟩
  · intro rows hall
    rcases validateCsvRows_cases rows with ⟨hok, _⟩ | ⟨_, hnall⟩
    · exact hok
    · exact absurd (fun r hr => (checkRow_ok_iff r).mpr
        fun p hp => (checkPair_ok_iff p.1 p.2).mpr (hall r hr p hp)) hnall
  · intro rows r p hr hp hbad
    rcases validateCsvRows_cases rows with ⟨_, hall⟩ | ⟨he, _⟩
    · have := (checkPair_ok_iff p.1 p.2).mp
        ((checkRow_ok_iff r).mp (hall r hr) p hp)
      rcases hbad with h | h
      · exact absurd h this.1
      · exact absurd h this.2.1
    · exact he
  · intro rows r p hr hp hdeep
    rcases validateCsvRows_cases rows with ⟨_, hall⟩ | ⟨he, _⟩
    · have := (checkPair_ok_iff p.1 p.2).mp
        ((checkRow_ok_iff r).mp (hall r hr) p hp)
      omega
    · exact he
  · intro k v
    constructor
    · simp only [string_eq_empty_iff_data]
      unfold checkPair
      split
      next h =>
        simpa [Bool.or_eq_true, List.isEmpty_iff] using h
      next h =>
        simp only [Bool.or_eq_true, List.isEmpty_iff] at h
        push_neg at h
        dsimp only
        split
        next hd =>
          constructor
          · intro he
            injection he with he2
            exact absurd he2 (fun hh => CsvError.noConfusion hh)
          · rintro (h1 | h2)
            · exact absurd h1 h.1
            · exact absurd h2 h.2
        next hd =>
          constructor
          · intro he
            exact Except.noConfusion he
          · rintro (h1 | h2)
            · exact absurd h1 h.1
            · exact absurd h2 h.2
    · intro d
      simp only [string_eq_empty_iff_data]
      unfold checkPair
      split
      next h =>
        simp only [Bool.or_eq_true, List.isEmpty_iff] at h
        constructor
        · intro he
          injection he with he2
          exact absurd he2 (fun hh => CsvError.noConfusion hh)
        · rintro ⟨h1, h2, _, _⟩
          rcases h with h | h
          · exact absurd h h1
          · exact absurd h h2
      next h =>
        simp only [Bool.or_eq_true, List.isEmpty_iff] at h
        push_neg at h
        dsimp only
        split
        next hd =>
          constructor
          · intro he
            injection he with he2
            injection he2 with he3
            exact ⟨h.1, h.2, he3, he3 ▸ hd⟩
          · rintro ⟨_, _, hlen, _⟩
            rw [hlen]
        next hd =>
          constructor
          · intro he
            exact Except.noConfusion he
          · rintro ⟨_, _, hlen, hgt⟩
            omega
  · intro rt apiKey t rows resp e he
    rcases h1 : validateRequestType rt with e1 | u1
    · simp [runProgram, h1]
    · cases u1
      rcases h2 : validateApiKey apiKey with e2 | u2
      · simp [runProgram, h1, h2]
      · cases u2
        simp [runProgram, h1, h2, he]

/-- Witness for `csvValidation` at the spec's own scenarios: a good
two-row CSV validates to exactly its rows in order; a row with an empty
value fails; a header of depth 3 fails; the pair-level classifications at
concrete pairs; and a run whose CSV fails validation sends no request. -/
theorem csvValidation_witness :
    validateCsvRows [[("transmitter.lat", "1"), ("transmitter.lon", "2")],
        [("transmitter.lat", "3"), ("transmitter.lon", "4")]]
      = .ok [[("transmitter.lat", "1"), ("transmitter.lon", "2")],
        [("transmitter.lat", "3"), ("transmitter.lon", "4")]] ∧
    (∃ e, validateCsvRows [[("transmitter.lat", "")]] = .error e) ∧
    (∃ e, validateCsvRows [[("a.b.c", "1")]] = .error e) ∧
    checkPair "transmitter.lat" "" = .error .malformedCsvRow ∧
    checkPair "a.b.c" "1" = .error (.excessiveNestingDepth 3) ∧
    (runProgram (some "area")
        "12345-abcdefabcdefabcdefabcdefabcdefabcdefabcd" (.obj [])
        (some [[("a.b.c", "1")]]) (fun _ => (200, "ok"))).sent = [] := by
  refine ⟨csvValidation.1 _ (by decide), ?_, ?_, ?_, ?_, ?_⟩
  · exact csvValidation.2.1 [[("transmitter.lat", "")]]
      [("transmitter.lat", "")] ("transmitter.lat", "")
      (List.mem_singleton.mpr rfl) (List.mem_singleton.mpr rfl)
      (Or.inr rfl)
  · exact csvValidation.2.2.1 [[("a.b.c", "1")]] [("a.b.c", "1")]
      ("a.b.c", "1") (List.mem_singleton.mpr rfl)
      (List.mem_singleton.mpr rfl) (by decide)
  · exact ((csvValidation.2.2.2.1 "transmitter.lat" "").1).mpr (Or.inr rfl)
  · exact ((csvValidation.2.2.2.1 "a.b.c" "1").2 3).mpr
      ⟨by decide, by decide, by decide, by decide⟩
  · obtain ⟨e, he⟩ := csvValidation.2.2.1 [[("a.b.c", "1")]]
      [("a.b.c", "1")] ("a.b.c", "1") (List.mem_singleton.mpr rfl)
      (List.mem_singleton.mpr rfl) (by decide)
    exact csvValidation.2.2.2.2 (some "area")
      "12345-abcdefabcdefabcdefabcdefabcdefabcdefabcd" (.obj [])
      [[("a.b.c", "1")]] (fun _ => (200, "ok")) e he

end CloudRF
